import Mathlib

/-!
Verification of the `grit-cli` pip launcher/provisioner
(`src/packaging/pip/grit_cli/__init__.py`) against its specification.

The Python module is shallowly embedded below.  Host introspection
(`platform.system()`, `platform.machine()`, environment variables, home
directory) is gathered in an `Env` record; the filesystem effects that the
claims are about (the versioned cache directory, the temporary working
directory, the number of network download attempts) are threaded through an
explicit `FS` state.  Paths are lists of components.  Python exceptions are
the constructors of `Err`: `runtimeError msg` embeds Python's generic
`RuntimeError`, `urlError` the `urllib` transport failures, `archiveError`
the `tarfile`/`zipfile` failures, and `fileNotFoundError` the
`FileNotFoundError` raised by `shutil.copy2` when the source is missing.
POSIX permission bits are not modelled (no claim in scope depends on them).
-/

deriving instance DecidableEq for Except

namespace GritCli

/-- `__version__ = "0.1.0"` in the Python module. -/
def pkg_version : String := "0.1.0"

/-- Python's `str.lower()` restricted to the ASCII machine strings in
scope (`platform.machine()` values are ASCII). -/
def pyLower (s : String) : String :=
  String.mk (s.data.map Char.toLower)

/-- Python's `str.startswith(p)`: the characters of `p` are a prefix of
the characters of `s`. -/
def pyStartsWith (s p : String) : Bool :=
  p.data.isPrefixOf s.data

/-- Host introspection and environment, as consulted by the module:
`platform.system()`, `platform.machine()`, `LOCALAPPDATA`, `XDG_CACHE_HOME`
and the home directory.  Environment variables are `none` when unset. -/
structure Env where
  system : String
  machine : String
  localAppData : Option (List String)
  xdgCacheHome : Option (List String)
  home : List String
deriving Repr, DecidableEq

/-- Python exceptions raised by the module. -/
inductive Err where
  | runtimeError (msg : String)
  | urlError
  | archiveError
  | fileNotFoundError (name : String)
deriving Repr, DecidableEq

/-- The `system_map` dictionary of `get_platform`. -/
def system_map (s : String) : Option String :=
  if s = "Darwin" then some "apple-darwin"
  else if s = "Linux" then some "unknown-linux-gnu"
  else if s = "Windows" then some "pc-windows-msvc"
  else none

/-- The `arch_map` dictionary of `get_platform` (looked up on the lowered
machine string). -/
def arch_map (m : String) : Option String :=
  if m = "x86_64" then some "x86_64"
  else if m = "amd64" then some "x86_64"
  else if m = "aarch64" then some "aarch64"
  else if m = "arm64" then some "aarch64"
  else none

/-- `get_platform()`: maps the detected OS and lowered machine string to the
release target triple; raises `RuntimeError` when either map misses.  On
Darwin the triple is the fixed `universal-apple-darwin`. -/
def get_platform (env : Env) : Except Err String :=
  let system := env.system
  let machine := pyLower env.machine
  match system_map system, arch_map machine with
  | some mapped_system, some mapped_arch =>
      if system = "Darwin" then Except.ok "universal-apple-darwin"
      else Except.ok (mapped_arch ++ "-" ++ mapped_system)
  | _, _ =>
      Except.error (Err.runtimeError
        ("Unsupported platform: " ++ system ++ "-" ++ machine))

/-- `get_archive_ext()`: `.zip` on Windows, `.tar.gz` otherwise. -/
def get_archive_ext (env : Env) : String :=
  if env.system = "Windows" then ".zip" else ".tar.gz"

/-- `get_binary_name(name)`: appends `.exe` exactly on Windows. -/
def get_binary_name (env : Env) (name : String) : String :=
  if env.system = "Windows" then name ++ ".exe" else name

/-- The path computed by `get_cache_dir()` (its `mkdir` side effect is
modelled in `get_binary_path`):
Windows `LOCALAPPDATA` (fallback `home/AppData/Local`), Darwin
`home/Library/Caches`, otherwise `XDG_CACHE_HOME` (fallback `home/.cache`),
each followed by the `grit-cli` component. -/
def get_cache_dir_path (env : Env) : List String :=
  let base :=
    if env.system = "Windows" then
      env.localAppData.getD (env.home ++ ["AppData", "Local"])
    else if env.system = "Darwin" then
      env.home ++ ["Library", "Caches"]
    else
      env.xdgCacheHome.getD (env.home ++ [".cache"])
  base ++ ["grit-cli"]

/-- The versioned binary path computed by `get_binary_path`:
`cache_dir / __version__ / get_binary_name name`. -/
def binary_path_of (env : Env) (name : String) : List String :=
  get_cache_dir_path env ++ [pkg_version, get_binary_name env name]

/-- Rendering of a path as `str(...)` (component join). -/
def pathStr (p : List String) : String :=
  String.intercalate "/" p

/-- Files of one directory: association list from file name to file
content (first entry for a name wins on lookup). -/
abbrev FileMap := List (String × String)

/-- Lookup of a file by name. -/
def FileMap.get : FileMap → String → Option String
  | [], _ => none
  | (k, v) :: rest, k' => if k = k' then some v else FileMap.get rest k'

/-- `shutil.copy2` semantics on the destination directory: write the file,
replacing any existing file of the same name. -/
def FileMap.set : FileMap → String → String → FileMap
  | [], k, v => [(k, v)]
  | (k', v') :: rest, k, v =>
      if k' = k then (k, v) :: rest else (k', v') :: FileMap.set rest k v

/-- The filesystem and network state the claims are about:
whether the base cache directory and the versioned directory exist, the
files inside the versioned directory, whether a temporary working
directory is currently live, and how many network download attempts have
been made. -/
structure FS where
  baseDirExists : Bool
  versionDirExists : Bool
  versionDirFiles : FileMap
  tempLive : Bool
  downloadAttempts : Nat
deriving Repr, DecidableEq

/-- A top-level entry of the temporary directory after extraction. -/
inductive Entry where
  | dir (name : String) (files : FileMap)
  | file (name : String)
deriving Repr, DecidableEq

/-- `[d for d in temp_path.iterdir() if d.is_dir() and
d.name.startswith("grit-")]`: the top-level directories whose name begins
with `grit-`, in iteration order. -/
def gritDirs : List Entry → List (String × FileMap)
  | [] => []
  | Entry.dir n fls :: rest =>
      if pyStartsWith n "grit-" then (n, fls) :: gritDirs rest
      else gritDirs rest
  | Entry.file _ :: rest => gritDirs rest

/-- Oracle for the download and extraction steps of one provisioning run:
the network transfer fails (`urllib` raises), the archive is malformed
(`tarfile`/`zipfile` raises), or extraction succeeds and deposits the given
top-level entries into the temporary directory. -/
inductive FetchResult where
  | downloadFail
  | extractFail
  | ok (entries : List Entry)
deriving Repr, DecidableEq

/-- The copy loop of `download_binary`: for each name, `shutil.copy2` the
binary from the extracted directory into the destination, raising
`FileNotFoundError` when the source file is missing.  (The subsequent
`chmod` touches only permission bits, which are not modelled.) -/
def copyBinaries (env : Env) (srcFiles : FileMap) :
    List String → FS → Except Err Unit × FS
  | [], fs => (Except.ok (), fs)
  | b :: rest, fs =>
      let bn := get_binary_name env b
      match srcFiles.get bn with
      | none => (Except.error (Err.fileNotFoundError bn), fs)
      | some content =>
          copyBinaries env srcFiles rest
            { fs with versionDirFiles := fs.versionDirFiles.set bn content }

/-- `download_binary(dest_dir)`: resolve the platform, create a temporary
directory, download and extract the release archive into it, locate the
first extracted `grit-` directory (raising `RuntimeError` when there is
none), create the destination directory and copy the `grit` and
`grit-daemon` binaries into it.  The temporary directory is removed on
every exit path (`with tempfile.TemporaryDirectory()`); the pair returned
is the Python call's outcome together with the state the filesystem is
left in, whether the call raised or not. -/
def download_binary (env : Env) (fetch : FetchResult) (fs : FS) :
    Except Err Unit × FS :=
  match get_platform env with
  | Except.error e => (Except.error e, fs)
  | Except.ok plat =>
      let ext := get_archive_ext env
      let archive_name := "grit-" ++ pkg_version ++ "-" ++ plat ++ ext
      let fs1 := { fs with tempLive := true }
      let body : Except Err Unit × FS :=
        let fs2 := { fs1 with downloadAttempts := fs1.downloadAttempts + 1 }
        match fetch with
        | FetchResult.downloadFail => (Except.error Err.urlError, fs2)
        | FetchResult.extractFail => (Except.error Err.archiveError, fs2)
        | FetchResult.ok entries =>
            let tempEntries := Entry.file archive_name :: entries
            match gritDirs tempEntries with
            | [] =>
                (Except.error
                  (Err.runtimeError "Could not find extracted directory"), fs2)
            | (_, srcFiles) :: _ =>
                copyBinaries env srcFiles ["grit", "grit-daemon"]
                  { fs2 with versionDirExists := true }
      (body.1, { body.2 with tempLive := false })

/-- `get_binary_path(name)`: compute the versioned path (the
`get_cache_dir()` call creates the base cache directory), return it at once
when the file exists (cache hit), otherwise run `download_binary` and
re-check existence, raising `RuntimeError` when the binary is still
missing. -/
def get_binary_path (env : Env) (fetch : FetchResult) (name : String)
    (fs : FS) : Except Err (List String) × FS :=
  let fs0 := { fs with baseDirExists := true }
  let bn := get_binary_name env name
  let bpath := binary_path_of env name
  if (fs0.versionDirFiles.get bn).isSome then (Except.ok bpath, fs0)
  else
    match download_binary env fetch fs0 with
    | (Except.error e, fs') => (Except.error e, fs')
    | (Except.ok (), fs') =>
        if (fs'.versionDirFiles.get bn).isSome then (Except.ok bpath, fs')
        else
          (Except.error (Err.runtimeError
            ("Binary not found after download: " ++ pathStr bpath)), fs')

/-- The `os.execv` call assembled by an entry point: the program to exec
and the argument vector handed to it. -/
structure ExecCall where
  prog : List String
  argv : List String
deriving Repr, DecidableEq

/-- `main()`: resolve the `grit` binary and
`os.execv(str(binary), [str(binary)] + sys.argv[1:])`. -/
def main (env : Env) (fetch : FetchResult) (sysArgv : List String)
    (fs : FS) : Except Err ExecCall × FS :=
  match get_binary_path env fetch "grit" fs with
  | (Except.ok binary, fs') =>
      (Except.ok ⟨binary, pathStr binary :: sysArgv.drop 1⟩, fs')
  | (Except.error e, fs') => (Except.error e, fs')

/-- `main_daemon()`: resolve the `grit-daemon` binary and
`os.execv(str(binary), [str(binary)] + sys.argv[1:])`. -/
def main_daemon (env : Env) (fetch : FetchResult) (sysArgv : List String)
    (fs : FS) : Except Err ExecCall × FS :=
  match get_binary_path env fetch "grit-daemon" fs with
  | (Except.ok binary, fs') =>
      (Except.ok ⟨binary, pathStr binary :: sysArgv.drop 1⟩, fs')
  | (Except.error e, fs') => (Except.error e, fs')

/-- Specification-side path formula (for the refinement claim about cache
paths): `baseCacheDir/version/binaryName` with `.exe` appended to
`binaryName` exactly on Windows, where `baseCacheDir` is
`%LOCALAPPDATA%/grit-cli` (fallback `<home>/AppData/Local/grit-cli`) on
Windows, `<home>/Library/Caches/grit-cli` on Darwin, and
`$XDG_CACHE_HOME/grit-cli` (fallback `<home>/.cache/grit-cli`) otherwise.
Stated from the spec's words, to be compared with `binary_path_of`. -/
def spec_binary_path (env : Env) (name : String) : List String :=
  let baseCacheDir : List String :=
    if env.system = "Windows" then
      env.localAppData.getD (env.home ++ ["AppData", "Local"]) ++ ["grit-cli"]
    else if env.system = "Darwin" then
      env.home ++ ["Library", "Caches", "grit-cli"]
    else
      env.xdgCacheHome.getD (env.home ++ [".cache"]) ++ ["grit-cli"]
  let binaryName := if env.system = "Windows" then name ++ ".exe" else name
  baseCacheDir ++ [pkg_version, binaryName]

/-! Concrete fixtures used by counterexamples and witnesses. -/

/-- A Linux host with an `amd64` machine string and default environment. -/
def envLinuxAmd : Env := ⟨"Linux", "amd64", none, none, ["home", "u"]⟩

/-- A host whose OS has no mapping. -/
def envPlan9 : Env := ⟨"Plan9", "x86_64", none, none, ["home", "u"]⟩

/-- A Darwin host with an unmapped machine string. -/
def envDarwinRiscv : Env := ⟨"Darwin", "riscv64", none, none, ["Users", "u"]⟩

/-- A Darwin host with an `arm64` machine string. -/
def envDarwinArm : Env := ⟨"Darwin", "arm64", none, none, ["Users", "u"]⟩

/-- The empty initial filesystem state. -/
def fsEmpty : FS := ⟨false, false, [], false, 0⟩

/-- A state whose versioned directory already holds the `grit` binary. -/
def fsHit : FS := ⟨true, true, [("grit", "GRIT")], false, 0⟩

/-- An extraction result with two top-level `grit-` directories. -/
def archiveTwoDirs : List Entry :=
  [Entry.dir "grit-a" [("grit", "G1"), ("grit-daemon", "D1")],
   Entry.dir "grit-b" [("grit", "G2"), ("grit-daemon", "D2")]]

/-- An extraction result whose single `grit-` directory lacks the
`grit-daemon` binary. -/
def archiveNoDaemon : List Entry :=
  [Entry.dir "grit-0.1.0" [("grit", "GRIT")]]

/-- An extraction result with one complete `grit-` directory. -/
def archiveGood : List Entry :=
  [Entry.dir "grit-0.1.0" [("grit", "GRIT"), ("grit-daemon", "DAEMON")]]

/-- A state from a partial install: the `grit` binary is present (with
stale content) and `grit-daemon` is absent. -/
def fsPartial : FS := ⟨true, true, [("grit", "OLD")], false, 0⟩

/-- The exec call produced by `main` on `envLinuxAmd` with a warm cache
and argv `["grit", "status"]`. -/
def execHit : ExecCall :=
  ⟨["home", "u", ".cache", "grit-cli", "0.1.0", "grit"],
   ["home/u/.cache/grit-cli/0.1.0/grit", "status"]⟩

/-! Helper lemmas about the embedded operations. -/

theorem FileMap.get_set_self (m : FileMap) (k v : String) :
    (m.set k v).get k = some v := by
  induction m with
  | nil => simp [FileMap.set, FileMap.get]
  | cons p rest ih =>
      obtain ⟨k', v'⟩ := p
      by_cases h : k' = k <;> simp [FileMap.set, FileMap.get, h, ih]

theorem FileMap.get_set_ne (m : FileMap) (k v k' : String) (h : k' ≠ k) :
    (m.set k v).get k' = m.get k' := by
  have hne : k ≠ k' := fun hh => h hh.symm
  induction m with
  | nil => simp [FileMap.set, FileMap.get, hne]
  | cons p rest ih =>
      obtain ⟨k₀, v₀⟩ := p
      by_cases h₀ : k₀ = k
      · subst h₀
        simp [FileMap.set, FileMap.get, hne]
      · simp [FileMap.set, FileMap.get, h₀, ih]

theorem copyBinaries_no_runtime_error (env : Env) (src : FileMap)
    (names : List String) (fs : FS) (msg : String) :
    (copyBinaries env src names fs).1 ≠ Except.error (Err.runtimeError msg) := by
  induction names generalizing fs with
  | nil => simp [copyBinaries]
  | cons b rest ih =>
      cases h : src.get (get_binary_name env b) <;> simp [copyBinaries, h, ih]

theorem copyBinaries_versionDirExists (env : Env) (src : FileMap)
    (names : List String) (fs : FS) :
    (copyBinaries env src names fs).2.versionDirExists = fs.versionDirExists := by
  induction names generalizing fs with
  | nil => simp [copyBinaries]
  | cons b rest ih =>
      cases h : src.get (get_binary_name env b) <;> simp [copyBinaries, h, ih]

theorem grit_name_ne_daemon_name (env : Env) :
    get_binary_name env "grit" ≠ get_binary_name env "grit-daemon" := by
  unfold get_binary_name
  split <;> decide

theorem copyBinaries_both (env : Env) (srcFiles : FileMap) (fs : FS) (cg cd : String)
    (hcg : srcFiles.get (get_binary_name env "grit") = some cg)
    (hcd : srcFiles.get (get_binary_name env "grit-daemon") = some cd) :
    copyBinaries env srcFiles ["grit", "grit-daemon"] fs =
      (Except.ok (), { fs with versionDirFiles := ((fs.versionDirFiles.set
        (get_binary_name env "grit") cg).set (get_binary_name env "grit-daemon") cd) }) := by
  simp [copyBinaries, hcg, hcd]

/-! The claim theorems. -/

/-- Claim C1, counterexample: with two top-level `grit-` directories in
the extraction result, `download_binary` does not fail — it succeeds,
using the first directory — so "fails when more than one such directory
exists" is false on the code. -/
theorem two_grit_dirs_accepted :
    (gritDirs archiveTwoDirs).length = 2 ∧
    (download_binary envLinuxAmd (FetchResult.ok archiveTwoDirs) fsEmpty).1 =
      Except.ok () := by
  decide

/-- Claim C1, amended: on a supported platform with a successful download
and extraction, `download_binary` fails with the extraction `RuntimeError`
exactly when the number of top-level extracted `grit-` directories is
zero; whenever at least one such directory exists (one or several) it
proceeds to the copy step, creating the destination directory. -/
theorem extraction_error_iff_no_grit_dir (env : Env) (plat : String)
    (entries : List Entry) (fs : FS)
    (hp : get_platform env = Except.ok plat) :
    ((download_binary env (FetchResult.ok entries) fs).1 =
        Except.error (Err.runtimeError "Could not find extracted directory") ↔
      gritDirs entries = []) ∧
    (gritDirs entries ≠ [] →
      (download_binary env (FetchResult.ok entries) fs).2.versionDirExists = true) := by
  unfold download_binary
  rw [hp]
  cases hg : gritDirs entries with
  | nil =>
      simp [gritDirs, hg]
  | cons d rest =>
      obtain ⟨n, srcFiles⟩ := d
      simp [gritDirs, hg, copyBinaries_no_runtime_error, copyBinaries_versionDirExists]

/-- Claim C1, witness: the amended theorem applied on Linux with an empty
extraction result. -/
theorem extraction_error_iff_no_grit_dir_witness :
    get_platform envLinuxAmd = Except.ok "x86_64-unknown-linux-gnu" ∧
    ((download_binary envLinuxAmd (FetchResult.ok []) fsEmpty).1 =
        Except.error (Err.runtimeError "Could not find extracted directory") ↔
      gritDirs [] = []) :=
  ⟨by decide,
    (extraction_error_iff_no_grit_dir envLinuxAmd "x86_64-unknown-linux-gnu" [] fsEmpty
      (by decide)).1⟩

/-- Claim C2, counterexample: an unsupported OS makes `get_platform` fail
with Python's generic `RuntimeError`, the same exception class the module
uses for the unrelated extraction-layout failure — there is no dedicated
`UnsupportedPlatformError` type. -/
theorem unsupported_platform_generic_runtime_error :
    get_platform envPlan9 =
      Except.error (Err.runtimeError "Unsupported platform: Plan9-x86_64") ∧
    (download_binary envLinuxAmd (FetchResult.ok []) fsEmpty).1 =
      Except.error (Err.runtimeError "Could not find extracted directory") := by
  decide

/-- Claim C2, amended: for every (OS, architecture) pair with no known
mapping, `get_platform` always fails, with the generic `RuntimeError`
carrying the message `Unsupported platform: <system>-<machine>` (the
module defines no dedicated exception type). -/
theorem unsupported_platform_runtime_error (env : Env)
    (h : system_map env.system = none ∨ arch_map (pyLower env.machine) = none) :
    get_platform env =
      Except.error (Err.runtimeError
        ("Unsupported platform: " ++ env.system ++ "-" ++ pyLower env.machine)) := by
  cases hs : system_map env.system <;>
    cases ha : arch_map (pyLower env.machine) <;>
      simp_all [get_platform]

/-- Claim C2, witness: the amended theorem applied to the `Plan9` host. -/
theorem unsupported_platform_runtime_error_witness :
    (system_map envPlan9.system = none ∨ arch_map (pyLower envPlan9.machine) = none) ∧
    get_platform envPlan9 =
      Except.error (Err.runtimeError
        ("Unsupported platform: " ++ envPlan9.system ++ "-" ++ pyLower envPlan9.machine)) :=
  ⟨Or.inl (by decide), unsupported_platform_runtime_error envPlan9 (Or.inl (by decide))⟩

/-- Claim C3, counterexample: on Darwin with the detected machine
`riscv64`, `get_platform` raises `RuntimeError` instead of returning
`universal-apple-darwin`, so "for every detected CPU architecture value"
is false on the code (the architecture map is consulted before the Darwin
override). -/
theorem darwin_unsupported_arch_fails :
    ¬ get_platform envDarwinRiscv = Except.ok "universal-apple-darwin" ∧
    get_platform envDarwinRiscv =
      Except.error (Err.runtimeError "Unsupported platform: Darwin-riscv64") := by
  decide

/-- Claim C3, amended: for every detected CPU architecture value that the
architecture map supports, when the detected OS is Darwin, `get_platform`
returns `universal-apple-darwin` (the architecture component is
overridden irrespective of which supported architecture was detected). -/
theorem darwin_supported_arch_universal (env : Env) (a : String)
    (hs : env.system = "Darwin") (ha : arch_map (pyLower env.machine) = some a) :
    get_platform env = Except.ok "universal-apple-darwin" := by
  simp [get_platform, hs, system_map, ha]

/-- Claim C3, witness: the amended theorem applied to a Darwin/arm64
host. -/
theorem darwin_supported_arch_universal_witness :
    envDarwinArm.system = "Darwin" ∧
    arch_map (pyLower envDarwinArm.machine) = some "aarch64" ∧
    get_platform envDarwinArm = Except.ok "universal-apple-darwin" :=
  ⟨rfl, by decide,
    darwin_supported_arch_universal envDarwinArm "aarch64" rfl (by decide)⟩

/-- Claim C4: when the requested binary already exists at the versioned
cache path (and the base cache directory exists, as it must whenever a
file beneath it does), `get_binary_path` returns that path immediately
and leaves the state entirely unchanged — in particular no download
attempt and no write to the cache, so a second call after a successful
install does not re-download. -/
theorem cache_hit_no_download (env : Env) (fetch : FetchResult) (name : String)
    (fs : FS) (hb : fs.baseDirExists = true)
    (hx : (fs.versionDirFiles.get (get_binary_name env name)).isSome = true) :
    get_binary_path env fetch name fs = (Except.ok (binary_path_of env name), fs) := by
  have hfs : { fs with baseDirExists := true } = fs := by
    cases fs
    simp_all
  unfold get_binary_path
  rw [hfs]
  simp [hx]

/-- Claim C4, witness: a warm cache on Linux returns at once even while
the network oracle would fail. -/
theorem cache_hit_no_download_witness :
    fsHit.baseDirExists = true ∧
    (fsHit.versionDirFiles.get (get_binary_name envLinuxAmd "grit")).isSome = true ∧
    get_binary_path envLinuxAmd FetchResult.downloadFail "grit" fsHit =
      (Except.ok (binary_path_of envLinuxAmd "grit"), fsHit) :=
  ⟨rfl, by decide,
    cache_hit_no_download envLinuxAmd FetchResult.downloadFail "grit" fsHit rfl (by decide)⟩

/-- Claim C5: when the download or the extraction step fails,
`download_binary` raises, the versioned cache directory and its files are
exactly as before the call (the destination is never created), the
temporary directory is removed, and exactly one download attempt was
made (no retry). -/
theorem failed_fetch_leaves_cache_untouched (env : Env) (plat : String)
    (fetch : FetchResult) (fs : FS)
    (hp : get_platform env = Except.ok plat)
    (hf : fetch = FetchResult.downloadFail ∨ fetch = FetchResult.extractFail) :
    (∃ e, (download_binary env fetch fs).1 = Except.error e) ∧
    (download_binary env fetch fs).2.versionDirExists = fs.versionDirExists ∧
    (download_binary env fetch fs).2.versionDirFiles = fs.versionDirFiles ∧
    (download_binary env fetch fs).2.tempLive = false ∧
    (download_binary env fetch fs).2.downloadAttempts = fs.downloadAttempts + 1 := by
  rcases hf with rfl | rfl <;>
    simp [download_binary, hp]

/-- Claim C5, witness: the theorem applied to a failing download on
Linux from the empty state. -/
theorem failed_fetch_leaves_cache_untouched_witness :
    get_platform envLinuxAmd = Except.ok "x86_64-unknown-linux-gnu" ∧
    ((∃ e, (download_binary envLinuxAmd FetchResult.downloadFail fsEmpty).1 = Except.error e) ∧
      (download_binary envLinuxAmd FetchResult.downloadFail fsEmpty).2.versionDirExists =
        fsEmpty.versionDirExists ∧
      (download_binary envLinuxAmd FetchResult.downloadFail fsEmpty).2.versionDirFiles =
        fsEmpty.versionDirFiles ∧
      (download_binary envLinuxAmd FetchResult.downloadFail fsEmpty).2.tempLive = false ∧
      (download_binary envLinuxAmd FetchResult.downloadFail fsEmpty).2.downloadAttempts =
        fsEmpty.downloadAttempts + 1) :=
  ⟨by decide,
    failed_fetch_leaves_cache_untouched envLinuxAmd "x86_64-unknown-linux-gnu"
      FetchResult.downloadFail fsEmpty (by decide) (Or.inl rfl)⟩

/-- Claim C6: for every supported non-Darwin (OS, architecture) pair the
triple is composed as `<arch>-<osFamily-suffix>`, under the exact
documented maps (`x86_64`/`amd64` to `x86_64`, `aarch64`/`arm64` to
`aarch64`, Linux to `unknown-linux-gnu`, Windows to `pc-windows-msvc`). -/
theorem non_darwin_triple_composition (env : Env) (s a : String)
    (hnd : env.system ≠ "Darwin")
    (hs : system_map env.system = some s)
    (ha : arch_map (pyLower env.machine) = some a) :
    get_platform env = Except.ok (a ++ "-" ++ s) ∧
    arch_map "x86_64" = some "x86_64" ∧
    arch_map "amd64" = some "x86_64" ∧
    arch_map "aarch64" = some "aarch64" ∧
    arch_map "arm64" = some "aarch64" ∧
    system_map "Linux" = some "unknown-linux-gnu" ∧
    system_map "Windows" = some "pc-windows-msvc" := by
  refine ⟨?_, by decide, by decide, by decide, by decide, by decide, by decide⟩
  simp [get_platform, hs, ha, hnd]

/-- Claim C6, witness: Linux/amd64 yields `x86_64-unknown-linux-gnu`. -/
theorem non_darwin_triple_composition_witness :
    envLinuxAmd.system ≠ "Darwin" ∧
    system_map envLinuxAmd.system = some "unknown-linux-gnu" ∧
    arch_map (pyLower envLinuxAmd.machine) = some "x86_64" ∧
    get_platform envLinuxAmd = Except.ok "x86_64-unknown-linux-gnu" :=
  ⟨by decide, by decide, by decide,
    (non_darwin_triple_composition envLinuxAmd "unknown-linux-gnu" "x86_64"
      (by decide) (by decide) (by decide)).1⟩

/-- Claim C7: the versioned binary path computed by the code equals the
spec's formula `baseCacheDir/version/binaryName` with `.exe` appended
exactly on Windows and the documented per-OS base directories (stated as
`spec_binary_path`); determinism under identical inputs is immediate
since `binary_path_of` is a pure function of the environment. -/
theorem binary_path_matches_spec (env : Env) (name : String) :
    binary_path_of env name = spec_binary_path env name := by
  unfold binary_path_of spec_binary_path get_cache_dir_path get_binary_name
  split_ifs <;> simp

/-- Claim C8: whenever an entry point reaches its `os.execv` call, the
argument vector it passes is the resolved binary path followed exactly by
the invocation's arguments after the program name, unchanged and in
order, for both the `grit` and the `grit-daemon` launchers. -/
theorem launcher_forwards_argv (env : Env) (fetch : FetchResult) (sysArgv : List String)
    (fs : FS) (c : ExecCall) (fs' : FS) :
    (main env fetch sysArgv fs = (Except.ok c, fs') →
      c.argv = pathStr c.prog :: sysArgv.drop 1) ∧
    (main_daemon env fetch sysArgv fs = (Except.ok c, fs') →
      c.argv = pathStr c.prog :: sysArgv.drop 1) := by
  constructor
  · intro h
    unfold main at h
    rcases hgb : get_binary_path env fetch "grit" fs with ⟨r, fs2⟩
    rw [hgb] at h
    cases r with
    | error e => simp at h
    | ok b =>
        have h1 : Except.ok (⟨b, pathStr b :: sysArgv.drop 1⟩ : ExecCall) = Except.ok c :=
          congrArg Prod.fst h
        injection h1 with h1
        rw [← h1]
  · intro h
    unfold main_daemon at h
    rcases hgb : get_binary_path env fetch "grit-daemon" fs with ⟨r, fs2⟩
    rw [hgb] at h
    cases r with
    | error e => simp at h
    | ok b =>
        have h1 : Except.ok (⟨b, pathStr b :: sysArgv.drop 1⟩ : ExecCall) = Except.ok c :=
          congrArg Prod.fst h
        injection h1 with h1
        rw [← h1]

/-- Claim C8, witness: invoking the launcher with argv
`["grit", "status"]` against a warm cache execs the cached binary with
the single forwarded argument `status`. -/
theorem launcher_forwards_argv_witness :
    execHit.argv = pathStr execHit.prog :: (["grit", "status"].drop 1) :=
  (launcher_forwards_argv envLinuxAmd FetchResult.downloadFail ["grit", "status"]
    fsHit execHit fsHit).1 (by decide)

/-- Claim C9: the existence check is on whichever binary is requested:
when `grit-daemon` is absent from the versioned directory,
`get_binary_path "grit-daemon"` runs the full pipeline — one download
attempt — regardless of whether `grit` is present, and the pipeline
overwrites any existing binaries with the archive's content, leaving both
binaries present. -/
theorem requested_binary_repaired (env : Env) (fs : FS) (entries : List Entry)
    (n : String) (srcFiles : FileMap) (plat cg cd : String)
    (hp : get_platform env = Except.ok plat)
    (hd : fs.versionDirFiles.get (get_binary_name env "grit-daemon") = none)
    (hg : gritDirs entries = [(n, srcFiles)])
    (hcg : srcFiles.get (get_binary_name env "grit") = some cg)
    (hcd : srcFiles.get (get_binary_name env "grit-daemon") = some cd) :
    (get_binary_path env (FetchResult.ok entries) "grit-daemon" fs).1 =
      Except.ok (binary_path_of env "grit-daemon") ∧
    (get_binary_path env (FetchResult.ok entries) "grit-daemon" fs).2.versionDirFiles.get
      (get_binary_name env "grit") = some cg ∧
    (get_binary_path env (FetchResult.ok entries) "grit-daemon" fs).2.versionDirFiles.get
      (get_binary_name env "grit-daemon") = some cd ∧
    (get_binary_path env (FetchResult.ok entries) "grit-daemon" fs).2.downloadAttempts =
      fs.downloadAttempts + 1 := by
  have hgd :
      gritDirs (Entry.file ("grit-" ++ pkg_version ++ "-" ++ plat ++ get_archive_ext env)
        :: entries) = [(n, srcFiles)] := by
    simpa [gritDirs] using hg
  simp [get_binary_path, download_binary, hp, hd, hgd, copyBinaries_both, hcg, hcd,
    FileMap.get_set_self,
    FileMap.get_set_ne _ _ _ _ (grit_name_ne_daemon_name env)]

/-- Claim C9, witness: a partial install (stale `grit` present,
`grit-daemon` absent) is repaired by requesting `grit-daemon`: the
pipeline runs once and overwrites the stale `grit` content. -/
theorem requested_binary_repaired_witness :
    get_platform envLinuxAmd = Except.ok "x86_64-unknown-linux-gnu" ∧
    fsPartial.versionDirFiles.get (get_binary_name envLinuxAmd "grit-daemon") = none ∧
    gritDirs archiveGood = [("grit-0.1.0", [("grit", "GRIT"), ("grit-daemon", "DAEMON")])] ∧
    ((get_binary_path envLinuxAmd (FetchResult.ok archiveGood) "grit-daemon" fsPartial).1 =
        Except.ok (binary_path_of envLinuxAmd "grit-daemon") ∧
      (get_binary_path envLinuxAmd (FetchResult.ok archiveGood) "grit-daemon"
          fsPartial).2.versionDirFiles.get (get_binary_name envLinuxAmd "grit") = some "GRIT" ∧
      (get_binary_path envLinuxAmd (FetchResult.ok archiveGood) "grit-daemon"
          fsPartial).2.versionDirFiles.get (get_binary_name envLinuxAmd "grit-daemon") =
        some "DAEMON" ∧
      (get_binary_path envLinuxAmd (FetchResult.ok archiveGood) "grit-daemon"
          fsPartial).2.downloadAttempts = fsPartial.downloadAttempts + 1) :=
  ⟨by decide, by decide, by decide,
    requested_binary_repaired envLinuxAmd fsPartial archiveGood "grit-0.1.0"
      [("grit", "GRIT"), ("grit-daemon", "DAEMON")] "x86_64-unknown-linux-gnu" "GRIT" "DAEMON"
      (by decide) (by decide) (by decide) (by decide) (by decide)⟩

/-- Claim C10: the copy phase is not atomic — an archive whose single
`grit-` directory contains `grit` but not `grit-daemon` makes
`download_binary` raise `FileNotFoundError` from the second copy after
`grit` has already been copied into the final versioned directory,
leaving a partial install visible at the final path. -/
theorem partial_copy_visible_at_destination :
    (gritDirs archiveNoDaemon).length = 1 ∧
    (download_binary envLinuxAmd (FetchResult.ok archiveNoDaemon) fsEmpty).1 =
      Except.error (Err.fileNotFoundError "grit-daemon") ∧
    (download_binary envLinuxAmd (FetchResult.ok archiveNoDaemon) fsEmpty).2.versionDirExists =
      true ∧
    (download_binary envLinuxAmd (FetchResult.ok archiveNoDaemon) fsEmpty).2.versionDirFiles.get
      "grit" = some "GRIT" := by
  decide

end GritCli
